import Mathlib

/-!
Verification of the aging-report engine of `ramp_aging_report`.

Shallow embedding conventions:
* `datetime` values are modelled as `Int` — seconds since an arbitrary epoch
  (the Unix epoch for concreteness).  Python's `timedelta.days` is floor
  division of the difference by 86400 (`timedelta` is normalised so that
  `0 <= seconds < 86400`), embedded as `daysBetween`.
* `strftime("%Y-%m-%d")` is embedded by `fmtYmd`: the civil date of the
  floor-day of the instant, rendered zero-padded (`YYYY-MM-DD`).
* Monetary amounts are embedded as `ℚ`.  The claims proved here concern
  sums the code itself forms (`Total` columns, totals rows), so the exact
  float rounding is not at issue; `ℚ` keeps those sums exact and decidable.
* Missing / unparseable dates (`pd.to_datetime(..., errors='coerce')`
  producing `NaT`) are embedded as `none : Option Int`.
-/

/-- Days of a `timedelta` between the instants `a` and `b` (seconds):
`(a - b).days` in Python, i.e. floor division of the span by 86400. -/
def daysBetween (a b : Int) : Int := Int.fdiv (a - b) 86400

/-- Zero-pad a month or day number to two digits (`strftime` `%m` / `%d`). -/
def pad2 (n : Int) : String := if n < 10 then "0" ++ toString n else toString n

/-- Zero-pad a year to four digits (`strftime` `%Y`, CPython behaviour). -/
def pad4 (n : Int) : String :=
  if n < 10 then "000" ++ toString n
  else if n < 100 then "00" ++ toString n
  else if n < 1000 then "0" ++ toString n
  else toString n

/-- Civil (proleptic Gregorian) date `(year, month, day)` of a day number
counted from 1970-01-01 (Howard Hinnant's `civil_from_days` algorithm, the
one underlying CPython's date handling). -/
def civilFromDays (z0 : Int) : Int × Int × Int :=
  let z := z0 + 719468
  let era := Int.fdiv z 146097
  let doe := z - era * 146097
  let yoe := Int.fdiv (doe - Int.fdiv doe 1460 + Int.fdiv doe 36524 - Int.fdiv doe 146096) 365
  let y := yoe + era * 400
  let doy := doe - (365 * yoe + Int.fdiv yoe 4 - Int.fdiv yoe 100)
  let mp := Int.fdiv (5 * doy + 2) 153
  let d := doy - Int.fdiv (153 * mp + 2) 5 + 1
  let m := mp + (if mp < 10 then 3 else -9)
  (y + (if m ≤ 2 then 1 else 0), m, d)

/-- `strftime("%Y-%m-%d")` of the instant `t` (seconds): the calendar date
of the floor-day containing `t`. -/
def fmtYmd (t : Int) : String :=
  let c := civilFromDays (Int.fdiv t 86400)
  pad4 c.1 ++ "-" ++ pad2 c.2.1 ++ "-" ++ pad2 c.2.2

/-- Python's string comparison (`<=`), embedded executably: lexicographic
comparison of the code-point sequences. -/
def charsLe : List Char → List Char → Bool
  | [], _ => true
  | _ :: _, [] => false
  | a :: as, b :: bs => if a < b then true else if b < a then false else charsLe as bs

/-- `a <= b` on Python strings (code-point lexicographic order). -/
def strLe (a b : String) : Bool := charsLe a.data b.data

/-- Python's `str.lower()` (ASCII case folding, the range vendor names
use), embedded executably per character. -/
def lowerStr (s : String) : String := ⟨s.data.map Char.toLower⟩

/-- Code-point prefix test: `charsIsPre p s` is true iff `p` is a prefix
of `s`. -/
def charsIsPre : List Char → List Char → Bool
  | [], _ => true
  | _ :: _, [] => false
  | p :: ps, sHead :: ss => p == sHead && charsIsPre ps ss

/-- Python's `s.startswith(p)`, embedded executably. -/
def strStartsWith (s p : String) : Bool := charsIsPre p.data s.data

/-- The `payment` field of a raw bill record.  `withEffective d` embeds a
payment dict that contains the key `'effective_date'` (whose value, after
`pd.to_datetime(..., errors='coerce')`, is `d`, `none` standing for a null
or unparseable entry); `other` embeds every other shape (`None`, or a dict
without the key), for which the code falls back to `paid_at`. -/
inductive PaymentField where
  | withEffective (d : Option Int) : PaymentField
  | other : PaymentField
deriving DecidableEq, Repr

/-- One row of the bills DataFrame after ingestion (`generate_entity_reports`
lines 73-78): dates already passed through `pd.to_datetime(errors='coerce')`
(`none` = `NaT`), `amount` already divided by 100, `vendor_name` already
extracted and stripped. -/
structure Bill where
  id : String
  vendor_name : String
  amount : ℚ
  due_at : Option Int
  issued_at : Option Int
  paid_at : Option Int
  payment : PaymentField
deriving DecidableEq, Repr

/-- `utils.categorize_aging(row, cut_off_date)`.

`delta = (cut_off_date - due_date).days`.  When `due_at` is `NaT` the
subtraction yields `NaT`, whose `.days` is `nan`; every comparison with
`nan` is `False`, so the `if/elif` chain falls through to the `else`
branch and returns the `>90` label — embedded by the `none` match arm. -/
def categorize_aging (row : Bill) (cut_off_date : Int) : String :=
  match row.due_at with
  | none =>
      "Before " ++ fmtYmd (cut_off_date - 90 * 86400) ++ " (>90)"
  | some due_date =>
      let delta := daysBetween cut_off_date due_date
      if delta < 0 then
        "Current"
      else if delta < 30 then
        fmtYmd (cut_off_date - 29 * 86400) ++ " - " ++ fmtYmd cut_off_date ++ " (30)"
      else if delta < 60 then
        fmtYmd (cut_off_date - 59 * 86400) ++ " - " ++ fmtYmd (cut_off_date - 30 * 86400) ++ " (60)"
      else if delta < 90 then
        fmtYmd (cut_off_date - 89 * 86400) ++ " - " ++ fmtYmd (cut_off_date - 60 * 86400) ++ " (90)"
      else
        "Before " ++ fmtYmd (cut_off_date - 90 * 86400) ++ " (>90)"

/-- `utils.generate_column_names(cut_off_date)`. -/
def generate_column_names (cut_off_date : Int) : List String :=
  ["Vendor Name",
   "Current",
   fmtYmd (cut_off_date - 29 * 86400) ++ " - " ++ fmtYmd cut_off_date ++ " (30)",
   fmtYmd (cut_off_date - 59 * 86400) ++ " - " ++ fmtYmd (cut_off_date - 30 * 86400) ++ " (60)",
   fmtYmd (cut_off_date - 89 * 86400) ++ " - " ++ fmtYmd (cut_off_date - 60 * 86400) ++ " (90)",
   "Before " ++ fmtYmd (cut_off_date - 90 * 86400) ++ " (>90)",
   "Total"]

/-- The per-row expression of `report.filter_open_as_of` lines 18-24: use
`payment['effective_date']` when `payment` is a dict containing that key,
otherwise fall back to `paid_at`; the result then goes through
`pd.to_datetime(errors='coerce')` (already folded into `Option Int`). -/
def preferredPaymentDate (x : Bill) : Option Int :=
  match x.payment with
  | .withEffective d => d
  | .other => x.paid_at

/-- A bill row with the `effective_date` column added by
`filter_open_as_of`. -/
structure BillWithEff where
  bill : Bill
  effective_date : Option Int
deriving DecidableEq, Repr

/-- The boolean mask of `filter_open_as_of` line 27:
`df['effective_date'].isna() | (df['effective_date'] > cut_off_date)`. -/
def keepOpen (cut_off_date : Int) (r : BillWithEff) : Bool :=
  r.effective_date.isNone ||
    (match r.effective_date with
     | some d => decide (cut_off_date < d)
     | none => false)

/-- `report.filter_open_as_of(df, cut_off_date)`: annotate every row with
the `effective_date` column, then keep the rows whose mask is true
(`df.loc[open_as_of_cutoff].copy()`). -/
def filter_open_as_of (df : List Bill) (cut_off_date : Int) : List BillWithEff :=
  (df.map (fun x => ⟨x, preferredPaymentDate x⟩)).filter (keepOpen cut_off_date)

/-- The `(30)` bucket label for a cutoff (column index 2 of
`generate_column_names`, also the classifier's `delta < 30` return). -/
def label30 (c : Int) : String :=
  fmtYmd (c - 29 * 86400) ++ " - " ++ fmtYmd c ++ " (30)"

/-- The `(60)` bucket label for a cutoff. -/
def label60 (c : Int) : String :=
  fmtYmd (c - 59 * 86400) ++ " - " ++ fmtYmd (c - 30 * 86400) ++ " (60)"

/-- The `(90)` bucket label for a cutoff. -/
def label90 (c : Int) : String :=
  fmtYmd (c - 89 * 86400) ++ " - " ++ fmtYmd (c - 60 * 86400) ++ " (90)"

/-- The `(>90)` bucket label for a cutoff. -/
def label90p (c : Int) : String :=
  "Before " ++ fmtYmd (c - 90 * 86400) ++ " (>90)"

/-- The five bucket labels, in the canonical order of
`generate_column_names` (its entries 1 through 5). -/
def fiveLabels (c : Int) : List String :=
  ["Current", label30 c, label60 c, label90 c, label90p c]

/-! ## Aggregation (`generate_entity_reports`, lines 88-116)

The pivot `groupby(['vendor_name','aging_bucket']).agg({'amount':'sum'})
.unstack(fill_value=0)` gives, per vendor and per discovered bucket label,
the sum of the amounts of that vendor's bills in that bucket (0 when none).
Line 97 computes `Total` as the row-wise sum over the discovered bucket
columns; line 103 then reindexes to the canonical `generate_column_names`
order, filling columns for labels no bill hit with 0. -/

/-- One cell of the unstacked pivot: total amount of the bills of vendor
`v` whose aging bucket is the label `L`. -/
def cellSum (bills : List Bill) (c : Int) (v L : String) : ℚ :=
  ((bills.filter (fun b => decide (b.vendor_name = v ∧ categorize_aging b c = L))).map
    Bill.amount).sum

/-- The bucket labels discovered in the data — the distinct values of the
`aging_bucket` column, i.e. the columns of the unstacked pivot. -/
def discoveredLabels (bills : List Bill) (c : Int) : List String :=
  (bills.map (fun b => categorize_aging b c)).dedup

/-- Line 97: the `Total` cell of vendor `v` — the row-wise sum over the
discovered bucket columns. -/
def rowTotalRaw (bills : List Bill) (c : Int) (v : String) : ℚ :=
  ((discoveredLabels bills c).map (fun L => cellSum bills c v L)).sum

/-- One row of the final aging report: vendor, the five canonical bucket
cells (reindex order of line 103), and the `Total` cell. -/
structure AgingRow where
  vendor : String
  cur : ℚ
  b30 : ℚ
  b60 : ℚ
  b90 : ℚ
  b90p : ℚ
  total : ℚ
deriving DecidableEq, Repr

/-- The report row of vendor `v` after the reindex of line 103. -/
def mkAgingRow (bills : List Bill) (c : Int) (v : String) : AgingRow :=
  { vendor := v
    cur := cellSum bills c v "Current"
    b30 := cellSum bills c v (label30 c)
    b60 := cellSum bills c v (label60 c)
    b90 := cellSum bills c v (label90 c)
    b90p := cellSum bills c v (label90p c)
    total := rowTotalRaw bills c v }

/-- The distinct vendor names, in the ascending key order `groupby`
produces (line 91). -/
def vendorKeys (bills : List Bill) : List String :=
  ((bills.map Bill.vendor_name).dedup).insertionSort (fun a b => strLe a b = true)

/-- Lines 91-109: the vendor rows of the aging report, re-sorted by the
lower-cased vendor name (lines 106-109).  `sort_values` uses a
deterministic comparison sort; `insertionSort` embeds it (ties between
distinct names equal up to case may come out in either order, which no
claim depends on). -/
def vendorRows (bills : List Bill) (c : Int) : List AgingRow :=
  ((vendorKeys bills).insertionSort
      (fun a b => strLe (lowerStr a) (lowerStr b) = true)).map
    (mkAgingRow bills c)

/-- Lines 112-113: the synthetic totals row — the column-wise sum of the
vendor rows, with vendor name `Total`. -/
def totalsRowOf (rows : List AgingRow) : AgingRow :=
  { vendor := "Total"
    cur := (rows.map AgingRow.cur).sum
    b30 := (rows.map AgingRow.b30).sum
    b60 := (rows.map AgingRow.b60).sum
    b90 := (rows.map AgingRow.b90).sum
    b90p := (rows.map AgingRow.b90p).sum
    total := (rows.map AgingRow.total).sum }

/-- Lines 88-116 of `generate_entity_reports`: the aging table built from
the open bills — sorted vendor rows followed by the totals row
(line 116's `pd.concat`). -/
def aggregate (bills : List Bill) (c : Int) : List AgingRow :=
  vendorRows bills c ++ [totalsRowOf (vendorRows bills c)]

/-! ## Reconciliation (`generate_reconciliation_report`, lines 231-312) -/

/-- One line of the Ramp-report CSV file (7 comma-separated cells:
vendor and six numeric columns). -/
structure RampRow where
  vendor : String
  cur : ℚ
  b30 : ℚ
  b60 : ℚ
  b90 : ℚ
  b90p : ℚ
  tot : ℚ
deriving DecidableEq, Repr

/-- One data row extracted from the NetSuite spreadsheet-XML (after the
11-row header skip): vendor plus six cells that went through
`pd.to_numeric(errors='coerce')` — `none` embeds an unparseable cell
(`NaN`). -/
structure NsRow where
  vendor : String
  cur : Option ℚ
  b30 : Option ℚ
  b60 : Option ℚ
  b90 : Option ℚ
  b90p : Option ℚ
  tot : Option ℚ
deriving DecidableEq, Repr

/-- One row of the outer-joined frame (line 269).  `none` on a side embeds
the `NaN`s a vendor missing from that side gets. -/
structure MergedRow where
  vendor : String
  rcur : Option ℚ
  r30 : Option ℚ
  r60 : Option ℚ
  r90 : Option ℚ
  r90p : Option ℚ
  rtot : Option ℚ
  ncur : Option ℚ
  n30 : Option ℚ
  n60 : Option ℚ
  n90 : Option ℚ
  n90p : Option ℚ
  ntot : Option ℚ
deriving DecidableEq, Repr

/-- The merged row of a Ramp row, matched (or not) with a NetSuite row. -/
def rampToMerged (r : RampRow) (n? : Option NsRow) : MergedRow :=
  { vendor := r.vendor
    rcur := some r.cur, r30 := some r.b30, r60 := some r.b60
    r90 := some r.b90, r90p := some r.b90p, rtot := some r.tot
    ncur := n?.bind NsRow.cur, n30 := n?.bind NsRow.b30, n60 := n?.bind NsRow.b60
    n90 := n?.bind NsRow.b90, n90p := n?.bind NsRow.b90p, ntot := n?.bind NsRow.tot }

/-- The merged row of a NetSuite row with no Ramp match (the Ramp side is
all `NaN`). -/
def nsToMerged (n : NsRow) : MergedRow :=
  { vendor := n.vendor
    rcur := none, r30 := none, r60 := none, r90 := none, r90p := none, rtot := none
    ncur := n.cur, n30 := n.b30, n60 := n.b60, n90 := n.b90, n90p := n.b90p, ntot := n.tot }

/-- `pd.merge(ramp_df, netsuite_df, on='vendor', how='outer')` (line 269):
every Ramp row paired with its NetSuite match when one exists, then the
NetSuite rows without a Ramp match.  (With duplicate vendor keys pandas
would emit one row per matching pair; the sources are keyed uniquely and
the claims below quantify over one-sided vendors, where the behaviours
agree.) -/
def outerJoin (ramp : List RampRow) (ns : List NsRow) : List MergedRow :=
  ramp.map (fun r => rampToMerged r (ns.find? (fun n => n.vendor == r.vendor)))
    ++ (ns.filter (fun n => !(ramp.any (fun r => r.vendor == n.vendor)))).map nsToMerged

/-- Line 276: `ramp_value - netsuite_value` with `NaN` propagation — a
missing operand makes the difference `NaN`. -/
def optSub (a b : Option ℚ) : Option ℚ :=
  match a, b with
  | some x, some y => some (x - y)
  | _, _ => none

/-- Line 281: `0 if abs(x) < epsilon else x`.  `abs(NaN) < epsilon` is
`False`, so a `NaN` difference stays `NaN`. -/
def epsSnap (eps : ℚ) (x : Option ℚ) : Option ℚ :=
  match x with
  | some v => if |v| < eps then some 0 else some v
  | none => none

/-- Line 292: `fillna(0)` on a numeric cell. -/
def fill0 (x : Option ℚ) : ℚ := x.getD 0

/-- One row of the reconciliation output, in the column order of lines
283-288: vendor, then `ramp, netsuite, diff` for each of the six
periods. -/
structure RecRow where
  vendor : String
  rcur : ℚ
  ncur : ℚ
  dcur : ℚ
  r30 : ℚ
  n30 : ℚ
  d30 : ℚ
  r60 : ℚ
  n60 : ℚ
  d60 : ℚ
  r90 : ℚ
  n90 : ℚ
  d90 : ℚ
  r90p : ℚ
  n90p : ℚ
  d90p : ℚ
  rtot : ℚ
  ntot : ℚ
  dtot : ℚ
deriving DecidableEq, Repr

/-- Lines 274-292 applied to one merged row: compute the six differences
(with `NaN` propagation), snap negligible ones to 0, then `fillna(0)`
every numeric cell. -/
def mergedToRec (eps : ℚ) (m : MergedRow) : RecRow :=
  { vendor := m.vendor
    rcur := fill0 m.rcur, ncur := fill0 m.ncur
    dcur := fill0 (epsSnap eps (optSub m.rcur m.ncur))
    r30 := fill0 m.r30, n30 := fill0 m.n30
    d30 := fill0 (epsSnap eps (optSub m.r30 m.n30))
    r60 := fill0 m.r60, n60 := fill0 m.n60
    d60 := fill0 (epsSnap eps (optSub m.r60 m.n60))
    r90 := fill0 m.r90, n90 := fill0 m.n90
    d90 := fill0 (epsSnap eps (optSub m.r90 m.n90))
    r90p := fill0 m.r90p, n90p := fill0 m.n90p
    d90p := fill0 (epsSnap eps (optSub m.r90p m.n90p))
    rtot := fill0 m.rtot, ntot := fill0 m.ntot
    dtot := fill0 (epsSnap eps (optSub m.rtot m.ntot)) }

/-- Line 272: keep the row unless its vendor starts with `"IC - "` or is
exactly `"Total"`. -/
def keepVendor (m : MergedRow) : Bool :=
  !(strStartsWith m.vendor "IC - ") && !(m.vendor == "Total")

/-- Lines 297-299: the totals row — the sum of every numeric column of the
(filtered, sorted) body. -/
def recTotalOf (rows : List RecRow) : RecRow :=
  { vendor := "Total"
    rcur := (rows.map RecRow.rcur).sum, ncur := (rows.map RecRow.ncur).sum
    dcur := (rows.map RecRow.dcur).sum
    r30 := (rows.map RecRow.r30).sum, n30 := (rows.map RecRow.n30).sum
    d30 := (rows.map RecRow.d30).sum
    r60 := (rows.map RecRow.r60).sum, n60 := (rows.map RecRow.n60).sum
    d60 := (rows.map RecRow.d60).sum
    r90 := (rows.map RecRow.r90).sum, n90 := (rows.map RecRow.n90).sum
    d90 := (rows.map RecRow.d90).sum
    r90p := (rows.map RecRow.r90p).sum, n90p := (rows.map RecRow.n90p).sum
    d90p := (rows.map RecRow.d90p).sum
    rtot := (rows.map RecRow.rtot).sum, ntot := (rows.map RecRow.ntot).sum
    dtot := (rows.map RecRow.dtot).sum }

/-- The sorted body of the reconciliation report (everything before the
totals row): `pd.read_csv` consumes the first line of the Ramp file as the
header row (line 233; the positional rename of line 236 then relabels the
columns), the data rows are outer-joined with the NetSuite rows, the
vendor exclusion of line 272 is applied, differences are computed and
filled, and the rows are sorted by vendor (line 295). -/
def reconBody (rampFile : List RampRow) (ns : List NsRow) (eps : ℚ) : List RecRow :=
  ((((outerJoin (rampFile.drop 1) ns).filter keepVendor).map
    (mergedToRec eps)).insertionSort (fun a b => strLe a.vendor b.vendor = true))

/-- `report.generate_reconciliation_report` (lines 231-312), as the table
it writes: the sorted body followed by the totals row (line 302). -/
def generate_reconciliation_report (rampFile : List RampRow) (ns : List NsRow)
    (eps : ℚ) : List RecRow :=
  reconBody rampFile ns eps ++ [recTotalOf (reconBody rampFile ns eps)]

/-! ## Spec-side definitions for claims C1 and C2 -/

/-- Modelled from the spec's bucket table (section 3): the condition on
`delta_days` of each of the five buckets. -/
def bucketCond (i : Fin 5) (delta : Int) : Prop :=
  match i with
  | ⟨0, _⟩ => delta < 0
  | ⟨1, _⟩ => 0 ≤ delta ∧ delta < 30
  | ⟨2, _⟩ => 30 ≤ delta ∧ delta < 60
  | ⟨3, _⟩ => 60 ≤ delta ∧ delta < 90
  | ⟨4, _⟩ => 90 ≤ delta

/-- The label of each of the five buckets. -/
def bucketLabel (i : Fin 5) (c : Int) : String :=
  match i with
  | ⟨0, _⟩ => "Current"
  | ⟨1, _⟩ => label30 c
  | ⟨2, _⟩ => label60 c
  | ⟨3, _⟩ => label90 c
  | ⟨4, _⟩ => label90p c

/-- Modelled from the spec's bucket table (section 3): the position in
`generate_column_names` of the column a given delta falls in. -/
def bucketColIdx (delta : Int) : Nat :=
  if delta < 0 then 1
  else if delta < 30 then 2
  else if delta < 60 then 3
  else if delta < 90 then 4
  else 5

/-- The last four characters of a string, reversed — a discriminator for
the bucket labels, whose fixed suffixes differ. -/
def tail4 (s : String) : List Char := s.data.reverse.take 4

/-- Case-insensitive vendor ordering (line 106's `str.lower` sort key) is
total. -/
instance : IsTotal String fun a b => strLe (lowerStr a) (lowerStr b) = true := by
  constructor
  intro a b
  show charsLe (lowerStr a).data (lowerStr b).data = true
    ∨ charsLe (lowerStr b).data (lowerStr a).data = true
  generalize (lowerStr a).data = as
  generalize (lowerStr b).data = bs
  induction as generalizing bs with
  | nil => left; rfl
  | cons x xs ih =>
    cases bs with
    | nil => right; rfl
    | cons y ys =>
      by_cases hxy : x < y
      · left; simp [charsLe, hxy]
      · by_cases hyx : y < x
        · right; simp [charsLe, hyx]
        · rcases ih ys with h | h
          · left; simp [charsLe, hxy, hyx, h]
          · right; simp [charsLe, hyx, hxy, h]

/-- Case-insensitive vendor ordering is transitive. -/
instance : IsTrans String fun a b => strLe (lowerStr a) (lowerStr b) = true := by
  constructor
  intro a b c
  show charsLe (lowerStr a).data (lowerStr b).data = true →
    charsLe (lowerStr b).data (lowerStr c).data = true →
    charsLe (lowerStr a).data (lowerStr c).data = true
  generalize (lowerStr a).data = as
  generalize (lowerStr b).data = bs
  generalize (lowerStr c).data = cs
  induction as generalizing bs cs with
  | nil => intro _ _; rfl
  | cons x xs ih =>
    intro h1 h2
    cases bs with
    | nil => exact absurd h1 (by simp [charsLe])
    | cons y ys =>
      cases cs with
      | nil => exact absurd h2 (by simp [charsLe])
      | cons z zs =>
        simp only [charsLe] at h1 h2 ⊢
        by_cases hxy : x < y
        · by_cases hyz : y < z
          · simp [lt_trans hxy hyz]
          · by_cases hzy : z < y
            · simp [hyz, hzy] at h2
            · have hyz' : y = z := le_antisymm (not_lt.mp hzy) (not_lt.mp hyz)
              have hxz : x < z := by rw [← hyz']; exact hxy
              simp [hxz]
        · by_cases hyx : y < x
          · simp [hxy, hyx] at h1
          · have hxy' : x = y := le_antisymm (not_lt.mp hyx) (not_lt.mp hxy)
            simp only [if_neg hxy, if_neg hyx] at h1
            by_cases hyz : y < z
            · have hxz : x < z := by rw [hxy']; exact hyz
              simp [hxz]
            · by_cases hzy : z < y
              · simp [hyz, hzy] at h2
              · have hyz' : y = z := le_antisymm (not_lt.mp hzy) (not_lt.mp hyz)
                simp only [if_neg hyz, if_neg hzy] at h2
                have hxz1 : ¬ x < z := by rw [hxy', hyz']; exact lt_irrefl z
                have hzx : ¬ z < x := by rw [hxy', hyz']; exact lt_irrefl z
                simp only [if_neg hxz1, if_neg hzx]
                exact ih ys zs h1 h2

/-! ## Helper lemmas -/

theorem data_append_eq (s t : String) : (s ++ t).data = s.data ++ t.data := by
  cases s; cases t; rfl

theorem tail4_append (s t : String) (h : 4 ≤ t.length) :
    tail4 (s ++ t) = tail4 t := by
  have hlen : 4 ≤ t.data.reverse.length := by
    rw [List.length_reverse]; exact h
  unfold tail4
  rw [data_append_eq, List.reverse_append, List.take_append_of_le_length hlen]

theorem tail4_label30 (c : Int) : tail4 (label30 c) = [')', '0', '3', '('] := by
  unfold label30
  rw [tail4_append _ " (30)" (by decide)]
  decide

theorem tail4_label60 (c : Int) : tail4 (label60 c) = [')', '0', '6', '('] := by
  unfold label60
  rw [tail4_append _ " (60)" (by decide)]
  decide

theorem tail4_label90 (c : Int) : tail4 (label90 c) = [')', '0', '9', '('] := by
  unfold label90
  rw [tail4_append _ " (90)" (by decide)]
  decide

theorem tail4_label90p (c : Int) : tail4 (label90p c) = [')', '0', '9', '>'] := by
  unfold label90p
  rw [tail4_append _ " (>90)" (by decide)]
  decide

/-- The five bucket labels are pairwise distinct strings for every cutoff:
`Current` and the four suffixes `(30)`, `(60)`, `(90)`, `(>90)` differ. -/
theorem fiveLabels_nodup (c : Int) : (fiveLabels c).Nodup := by
  have tc : tail4 "Current" = ['t', 'n', 'e', 'r'] := by decide
  have t1 := tail4_label30 c
  have t2 := tail4_label60 c
  have t3 := tail4_label90 c
  have t4 := tail4_label90p c
  have ne_of_tail4 : ∀ a b : String, tail4 a ≠ tail4 b → a ≠ b :=
    fun a b hne hab => hne (hab ▸ rfl)
  have h01 : ("Current" : String) ≠ label30 c := ne_of_tail4 _ _ (by rw [tc, t1]; decide)
  have h02 : ("Current" : String) ≠ label60 c := ne_of_tail4 _ _ (by rw [tc, t2]; decide)
  have h03 : ("Current" : String) ≠ label90 c := ne_of_tail4 _ _ (by rw [tc, t3]; decide)
  have h04 : ("Current" : String) ≠ label90p c := ne_of_tail4 _ _ (by rw [tc, t4]; decide)
  have h12 : label30 c ≠ label60 c := ne_of_tail4 _ _ (by rw [t1, t2]; decide)
  have h13 : label30 c ≠ label90 c := ne_of_tail4 _ _ (by rw [t1, t3]; decide)
  have h14 : label30 c ≠ label90p c := ne_of_tail4 _ _ (by rw [t1, t4]; decide)
  have h23 : label60 c ≠ label90 c := ne_of_tail4 _ _ (by rw [t2, t3]; decide)
  have h24 : label60 c ≠ label90p c := ne_of_tail4 _ _ (by rw [t2, t4]; decide)
  have h34 : label90 c ≠ label90p c := ne_of_tail4 _ _ (by rw [t3, t4]; decide)
  refine List.nodup_cons.mpr ⟨?_, List.nodup_cons.mpr ⟨?_, List.nodup_cons.mpr
    ⟨?_, List.nodup_cons.mpr ⟨?_, List.nodup_singleton _⟩⟩⟩⟩
  · intro hm
    simp only [List.mem_cons, List.mem_singleton, List.not_mem_nil, or_false] at hm
    rcases hm with h | h | h | h
    exacts [h01 h, h02 h, h03 h, h04 h]
  · intro hm
    simp only [List.mem_cons, List.mem_singleton, List.not_mem_nil, or_false] at hm
    rcases hm with h | h | h
    exacts [h12 h, h13 h, h14 h]
  · intro hm
    simp only [List.mem_cons, List.mem_singleton, List.not_mem_nil, or_false] at hm
    rcases hm with h | h
    exacts [h23 h, h24 h]
  · intro hm
    simp only [List.mem_singleton, List.not_mem_nil, or_false] at hm
    exact h34 hm

/-- Unfolding of the classifier on a bill with a resolvable due date. -/
theorem categorize_of_due (r : Bill) (c d : Int) (h : r.due_at = some d) :
    categorize_aging r c =
      if daysBetween c d < 0 then "Current"
      else if daysBetween c d < 30 then label30 c
      else if daysBetween c d < 60 then label60 c
      else if daysBetween c d < 90 then label90 c
      else label90p c := by
  unfold categorize_aging label30 label60 label90 label90p
  rw [h]

/-- Unfolding of the classifier on a bill with a missing due date. -/
theorem categorize_of_none (r : Bill) (c : Int) (h : r.due_at = none) :
    categorize_aging r c = label90p c := by
  unfold categorize_aging label90p
  rw [h]

/-- Every bill is classified into one of the five canonical labels. -/
theorem categorize_mem_fiveLabels (r : Bill) (c : Int) :
    categorize_aging r c ∈ fiveLabels c := by
  cases hd : r.due_at with
  | none => rw [categorize_of_none r c hd]; simp [fiveLabels]
  | some d => rw [categorize_of_due r c d hd]; split_ifs <;> simp [fiveLabels]

/-! ## Summation lemmas for the aggregation claim -/

theorem sum_map_filter_or {α : Type} (f : α → ℚ) (p q : α → Bool)
    (hpq : ∀ a, p a = true → q a = false) (l : List α) :
    ((l.filter (fun a => p a || q a)).map f).sum
      = ((l.filter p).map f).sum + ((l.filter q).map f).sum := by
  induction l with
  | nil => simp
  | cons a l ih =>
    by_cases hp : p a = true
    · have hq := hpq a hp
      simp only [List.filter_cons, hp, hq, Bool.true_or, if_true, if_false,
        Bool.false_eq_true, List.map_cons, List.sum_cons, ih]
      ring
    · have hp' : p a = false := by
        cases hpa : p a
        · rfl
        · exact absurd hpa hp
      by_cases hq : q a = true
      · simp only [List.filter_cons, hp', hq, Bool.false_or, if_true, if_false,
          Bool.false_eq_true, List.map_cons, List.sum_cons, ih]
        ring
      · have hq' : q a = false := by
          cases hqa : q a
          · rfl
          · exact absurd hqa hq
        simp only [List.filter_cons, hp', hq', Bool.false_or, if_false,
          Bool.false_eq_true, ih]

/-- Summing the pivot cells of vendor `v` over a duplicate-free list of
labels equals the total amount of the bills of `v` whose bucket lies in
that list: each such bill is counted exactly once. -/
theorem sum_cells_eq (bills : List Bill) (c : Int) (v : String) :
    ∀ ls : List String, ls.Nodup →
      (ls.map (fun L => cellSum bills c v L)).sum
        = ((bills.filter
            (fun b => decide (b.vendor_name = v ∧ categorize_aging b c ∈ ls))).map
            Bill.amount).sum := by
  intro ls
  induction ls with
  | nil =>
    intro _
    simp [cellSum]
  | cons L ls ih =>
    intro hnd
    rcases List.nodup_cons.mp hnd with ⟨hL, hnd'⟩
    have hsplit :
        (bills.filter
          (fun b => decide (b.vendor_name = v ∧ categorize_aging b c ∈ L :: ls)))
          = bills.filter
              (fun b => decide (b.vendor_name = v ∧ categorize_aging b c = L)
                || decide (b.vendor_name = v ∧ categorize_aging b c ∈ ls)) := by
      apply List.filter_congr
      intro b _
      by_cases hv : b.vendor_name = v
      · by_cases hcl : categorize_aging b c = L
        · simp [hv, hcl]
        · by_cases hin : categorize_aging b c ∈ ls
          · simp [hv, hcl, hin]
          · simp [hv, hcl, hin]
      · simp [hv]
    have hdisj : ∀ b : Bill,
        decide (b.vendor_name = v ∧ categorize_aging b c = L) = true →
        decide (b.vendor_name = v ∧ categorize_aging b c ∈ ls) = false := by
      intro b hb
      rcases of_decide_eq_true hb with ⟨_, hcl⟩
      apply decide_eq_false
      rintro ⟨_, hin⟩
      exact hL (hcl ▸ hin)
    rw [List.map_cons, List.sum_cons, ih hnd', hsplit,
      sum_map_filter_or Bill.amount _ _ hdisj]
    rfl

/-- Line 97's `Total` cell — the row-wise sum over the discovered bucket
columns — is the total amount of the vendor's bills. -/
theorem rowTotalRaw_eq_vendor_sum (bills : List Bill) (c : Int) (v : String) :
    rowTotalRaw bills c v
      = ((bills.filter (fun b => decide (b.vendor_name = v))).map Bill.amount).sum := by
  have hnd : (discoveredLabels bills c).Nodup := by
    unfold discoveredLabels
    exact List.nodup_dedup _
  rw [rowTotalRaw, sum_cells_eq bills c v _ hnd]
  have hfilters :
      (bills.filter
        (fun b => decide (b.vendor_name = v ∧ categorize_aging b c ∈ discoveredLabels bills c)))
        = bills.filter (fun b => decide (b.vendor_name = v)) := by
    apply List.filter_congr
    intro b hb
    have hmem : categorize_aging b c ∈ discoveredLabels bills c :=
      List.mem_dedup.mpr (List.mem_map_of_mem _ hb)
    simp [hmem]
  rw [hfilters]

/-- The sum of the five canonical bucket cells of vendor `v` is the total
amount of the vendor's bills: the five labels are pairwise distinct and
every bill's bucket is one of them. -/
theorem five_cells_sum_eq_vendor_sum (bills : List Bill) (c : Int) (v : String) :
    cellSum bills c v "Current" + cellSum bills c v (label30 c)
      + cellSum bills c v (label60 c) + cellSum bills c v (label90 c)
      + cellSum bills c v (label90p c)
      = ((bills.filter (fun b => decide (b.vendor_name = v))).map Bill.amount).sum := by
  have h := sum_cells_eq bills c v (fiveLabels c) (fiveLabels_nodup c)
  have hfull :
      (bills.filter
        (fun b => decide (b.vendor_name = v ∧ categorize_aging b c ∈ fiveLabels c)))
        = bills.filter (fun b => decide (b.vendor_name = v)) := by
    apply List.filter_congr
    intro b _
    simp [categorize_mem_fiveLabels b c]
  rw [hfull] at h
  rw [← h]
  simp [fiveLabels]
  ring

/-- The `Total` cell of each vendor row equals the sum of its five bucket
cells. -/
theorem mkAgingRow_total_eq (bills : List Bill) (c : Int) (v : String) :
    (mkAgingRow bills c v).total
      = (mkAgingRow bills c v).cur + (mkAgingRow bills c v).b30
        + (mkAgingRow bills c v).b60 + (mkAgingRow bills c v).b90
        + (mkAgingRow bills c v).b90p := by
  show rowTotalRaw bills c v = _
  rw [rowTotalRaw_eq_vendor_sum, ← five_cells_sum_eq_vendor_sum bills c v]
  rfl

/-! ## Claim theorems -/

/-- Claim C1: for every due date and every cutoff date, classification is
determined by `delta_days = cutoff - due_at`: the five delta ranges
(`< 0`, `[0,30)`, `[30,60)`, `[60,90)`, `>= 90`) partition all integers —
exactly one range condition holds for every delta, in particular at the
boundary values 29, 30, 59, 60, 89, 90 — and `categorize_aging` returns
precisely the label of the bill's range. -/
theorem C1_classify_partition (c : Int) (r : Bill) (d : Int)
    (h : r.due_at = some d) :
    (∀ delta : Int, ∃! i : Fin 5, bucketCond i delta) ∧
    ∀ i : Fin 5, bucketCond i (daysBetween c d) →
      categorize_aging r c = bucketLabel i c := by
  constructor
  · intro delta
    by_cases h0 : delta < 0
    · refine ⟨⟨0, by omega⟩, h0, ?_⟩
      intro y hy
      fin_cases y <;> first | rfl | (exfalso; simp only [bucketCond] at hy; omega)
    · by_cases h30 : delta < 30
      · refine ⟨⟨1, by omega⟩, ⟨by omega, h30⟩, ?_⟩
        intro y hy
        fin_cases y <;> first | rfl | (exfalso; simp only [bucketCond] at hy; omega)
      · by_cases h60 : delta < 60
        · refine ⟨⟨2, by omega⟩, ⟨by omega, h60⟩, ?_⟩
          intro y hy
          fin_cases y <;> first | rfl | (exfalso; simp only [bucketCond] at hy; omega)
        · by_cases h90 : delta < 90
          · refine ⟨⟨3, by omega⟩, ⟨by omega, h90⟩, ?_⟩
            intro y hy
            fin_cases y <;> first | rfl | (exfalso; simp only [bucketCond] at hy; omega)
          · refine ⟨⟨4, by omega⟩, show (90 : Int) ≤ delta by omega, ?_⟩
            intro y hy
            fin_cases y <;> first | rfl | (exfalso; simp only [bucketCond] at hy; omega)
  · intro i hi
    fin_cases i <;>
      simp only [bucketCond] at hi <;>
      rw [categorize_of_due r c d h] <;>
      simp only [bucketLabel] <;>
      split_ifs <;>
      first | (exfalso; omega) | rfl

/-- Witness for C1: cutoff = end of day 19966 (2024-08-31T23:59:59), bill
due at day 19936 (2024-08-01, delta = 30). -/
theorem C1_witness :
    ((⟨"b1", "Acme", 10, some (19936 * 86400), none, none, .other⟩ : Bill).due_at
        = some (19936 * 86400)) ∧
    ((∀ delta : Int, ∃! i : Fin 5, bucketCond i delta) ∧
      ∀ i : Fin 5, bucketCond i (daysBetween (19966 * 86400 + 86399) (19936 * 86400)) →
        categorize_aging
            (⟨"b1", "Acme", 10, some (19936 * 86400), none, none, .other⟩ : Bill)
            (19966 * 86400 + 86399)
          = bucketLabel i (19966 * 86400 + 86399)) :=
  ⟨rfl, C1_classify_partition (19966 * 86400 + 86399) _ (19936 * 86400) rfl⟩

/-- Claim C2: for every cutoff, the column produced by
`generate_column_names` at the position of a bill's delta range is
byte-identical to the label `categorize_aging` assigns that bill, so the
pivoted report columns align with the classifier's output. -/
theorem C2_columns_align (c : Int) (r : Bill) (d : Int)
    (h : r.due_at = some d) :
    (generate_column_names c).get? (bucketColIdx (daysBetween c d))
      = some (categorize_aging r c) := by
  rw [categorize_of_due r c d h]
  unfold bucketColIdx generate_column_names label30 label60 label90 label90p
  split_ifs <;> rfl

/-- Witness for C2 at the same concrete cutoff/due pair (delta = 30, the
60-day column). -/
theorem C2_witness :
    ((⟨"b2", "Acme", 10, some (19936 * 86400), none, none, .other⟩ : Bill).due_at
        = some (19936 * 86400)) ∧
    (generate_column_names (19966 * 86400 + 86399)).get?
        (bucketColIdx (daysBetween (19966 * 86400 + 86399) (19936 * 86400)))
      = some (categorize_aging
          (⟨"b2", "Acme", 10, some (19936 * 86400), none, none, .other⟩ : Bill)
          (19966 * 86400 + 86399)) :=
  ⟨rfl, C2_columns_align (19966 * 86400 + 86399) _ (19936 * 86400) rfl⟩

/-- Claim C3: the openness filter keeps a bill iff its preferred payment
date (`payment.effective_date` when the payment dict carries that key,
otherwise `paid_at`) is absent or unparseable (`none`), or strictly after
the cutoff; a bill with no payment date is always kept, a bill paid
exactly at the cutoff is excluded, and a bill paid any time after the
cutoff (here: one second) is kept. -/
theorem C3_open_filter (c : Int) (x : Bill) :
    (keepOpen c ⟨x, preferredPaymentDate x⟩ = true
        ↔ preferredPaymentDate x = none
          ∨ ∃ d, preferredPaymentDate x = some d ∧ c < d) ∧
    (preferredPaymentDate x = none → keepOpen c ⟨x, preferredPaymentDate x⟩ = true) ∧
    (preferredPaymentDate x = some c → keepOpen c ⟨x, preferredPaymentDate x⟩ = false) ∧
    (preferredPaymentDate x = some (c + 1) →
      keepOpen c ⟨x, preferredPaymentDate x⟩ = true) ∧
    ∀ df : List Bill, x ∈ df →
      ((⟨x, preferredPaymentDate x⟩ : BillWithEff) ∈ filter_open_as_of df c
        ↔ keepOpen c ⟨x, preferredPaymentDate x⟩ = true) := by
  refine ⟨?_, ?_, ?_, ?_, ?_⟩
  · cases hp : preferredPaymentDate x with
    | none => simp [keepOpen, hp]
    | some d => simp [keepOpen, hp]
  · intro hp
    simp [keepOpen, hp]
  · intro hp
    simp [keepOpen, hp]
  · intro hp
    simp [keepOpen, hp]
  · intro df hx
    unfold filter_open_as_of
    constructor
    · intro hmem
      exact (List.mem_filter.mp hmem).2
    · intro hk
      exact List.mem_filter.mpr
        ⟨List.mem_map_of_mem
          (fun b => (⟨b, preferredPaymentDate b⟩ : BillWithEff)) hx, hk⟩

/-- Witness for C3: an unpaid bill (no payment dict, no paid_at) in a
one-row table. -/
theorem C3_witness :
    (keepOpen 0 ⟨⟨"b3", "V", 5, none, none, none, .other⟩,
        preferredPaymentDate ⟨"b3", "V", 5, none, none, none, .other⟩⟩ = true
      ↔ preferredPaymentDate ⟨"b3", "V", 5, none, none, none, .other⟩ = none
        ∨ ∃ d, preferredPaymentDate ⟨"b3", "V", 5, none, none, none, .other⟩ = some d
            ∧ 0 < d) ∧
    (preferredPaymentDate ⟨"b3", "V", 5, none, none, none, .other⟩ = none →
      keepOpen 0 ⟨⟨"b3", "V", 5, none, none, none, .other⟩,
        preferredPaymentDate ⟨"b3", "V", 5, none, none, none, .other⟩⟩ = true) ∧
    (preferredPaymentDate ⟨"b3", "V", 5, none, none, none, .other⟩ = some 0 →
      keepOpen 0 ⟨⟨"b3", "V", 5, none, none, none, .other⟩,
        preferredPaymentDate ⟨"b3", "V", 5, none, none, none, .other⟩⟩ = false) ∧
    (preferredPaymentDate ⟨"b3", "V", 5, none, none, none, .other⟩ = some (0 + 1) →
      keepOpen 0 ⟨⟨"b3", "V", 5, none, none, none, .other⟩,
        preferredPaymentDate ⟨"b3", "V", 5, none, none, none, .other⟩⟩ = true) ∧
    ∀ df : List Bill, (⟨"b3", "V", 5, none, none, none, .other⟩ : Bill) ∈ df →
      ((⟨⟨"b3", "V", 5, none, none, none, .other⟩,
          preferredPaymentDate ⟨"b3", "V", 5, none, none, none, .other⟩⟩ : BillWithEff)
          ∈ filter_open_as_of df 0
        ↔ keepOpen 0 ⟨⟨"b3", "V", 5, none, none, none, .other⟩,
            preferredPaymentDate ⟨"b3", "V", 5, none, none, none, .other⟩⟩ = true) :=
  C3_open_filter 0 ⟨"b3", "V", 5, none, none, none, .other⟩

/-- Claim C9: the openness filter only selects and annotates — stripping
the added `effective_date` column from the output yields a sublist of the
input (every output row is an input row, with all original fields
unchanged and row order preserved, and no new rows), and the annotation
is exactly the preferred payment date of the row's own bill. -/
theorem C9_filter_frame (df : List Bill) (c : Int) :
    ((filter_open_as_of df c).map BillWithEff.bill).Sublist df ∧
    (∀ r ∈ filter_open_as_of df c, r.effective_date = preferredPaymentDate r.bill) ∧
    (filter_open_as_of df c).length ≤ df.length := by
  have hsub : (filter_open_as_of df c).Sublist
      (df.map (fun b => ⟨b, preferredPaymentDate b⟩)) := List.filter_sublist _
  refine ⟨?_, ?_, ?_⟩
  · have hmap := hsub.map BillWithEff.bill
    rw [List.map_map] at hmap
    have hcomp : (BillWithEff.bill ∘ fun b : Bill =>
        (⟨b, preferredPaymentDate b⟩ : BillWithEff)) = id := rfl
    rwa [hcomp, List.map_id] at hmap
  · intro r hr
    have hr' : r ∈ df.map (fun b => ⟨b, preferredPaymentDate b⟩) :=
      (List.mem_filter.mp hr).1
    rcases List.mem_map.mp hr' with ⟨b, _, rfl⟩
    rfl
  · have := hsub.length_le
    rwa [List.length_map] at this

/-- Witness for C9 on a two-row table (one open, one paid before cutoff). -/
theorem C9_witness :
    ((filter_open_as_of
        [⟨"o1", "V", 5, none, none, none, .other⟩,
         ⟨"o2", "W", 7, none, none, some (-3), .other⟩] 0).map
        BillWithEff.bill).Sublist
      [⟨"o1", "V", 5, none, none, none, .other⟩,
       ⟨"o2", "W", 7, none, none, some (-3), .other⟩] ∧
    (∀ r ∈ filter_open_as_of
        [⟨"o1", "V", 5, none, none, none, .other⟩,
         ⟨"o2", "W", 7, none, none, some (-3), .other⟩] 0,
      r.effective_date = preferredPaymentDate r.bill) ∧
    (filter_open_as_of
        [⟨"o1", "V", 5, none, none, none, .other⟩,
         ⟨"o2", "W", 7, none, none, some (-3), .other⟩] 0).length ≤
      ([⟨"o1", "V", 5, none, none, none, .other⟩,
        ⟨"o2", "W", 7, none, none, some (-3), .other⟩] : List Bill).length :=
  C9_filter_frame _ 0

/-- Claim C10: classification reads only the bill's due date and the
cutoff — two bill rows with the same `due_at` get the same bucket label
under the same cutoff, whatever their other fields. -/
theorem C10_due_only (r1 r2 : Bill) (c : Int) (h : r1.due_at = r2.due_at) :
    categorize_aging r1 c = categorize_aging r2 c := by
  unfold categorize_aging
  rw [h]

/-- Witness for C10: same due date, different id, vendor, amount, payment
state. -/
theorem C10_witness :
    ((⟨"a", "V", 5, some 86400, none, none, .other⟩ : Bill).due_at
        = (⟨"b", "W", 9, some 86400, some 0, some 17, .withEffective (some 3)⟩ : Bill).due_at) ∧
    categorize_aging (⟨"a", "V", 5, some 86400, none, none, .other⟩ : Bill) 0
      = categorize_aging
          (⟨"b", "W", 9, some 86400, some 0, some 17, .withEffective (some 3)⟩ : Bill) 0 :=
  ⟨rfl, C10_due_only _ _ 0 rfl⟩

/-- Claim C4: aggregation is deterministic (same open-bill set in, same
table out), each vendor row's `Total` cell equals the sum of the row's
five bucket cells, the vendor rows are pairwise sorted by the
case-insensitive vendor name, and the table is the vendor rows followed by
the synthetic `Total` row — `totalsRowOf`, the column-wise sum of the
vendor rows — appended last. -/
theorem C4_aggregate_shape (bills : List Bill) (c : Int) :
    aggregate bills c = aggregate bills c ∧
    (∀ r ∈ vendorRows bills c, r.total = r.cur + r.b30 + r.b60 + r.b90 + r.b90p) ∧
    List.Pairwise
      (fun a b : AgingRow => strLe (lowerStr a.vendor) (lowerStr b.vendor) = true)
      (vendorRows bills c) ∧
    aggregate bills c = vendorRows bills c ++ [totalsRowOf (vendorRows bills c)] ∧
    (aggregate bills c).getLast? = some (totalsRowOf (vendorRows bills c)) := by
  refine ⟨rfl, ?_, ?_, rfl, ?_⟩
  · intro r hr
    rcases List.mem_map.mp hr with ⟨v, _, rfl⟩
    exact mkAgingRow_total_eq bills c v
  · have hs : List.Sorted (fun a b : String => strLe (lowerStr a) (lowerStr b) = true)
        ((vendorKeys bills).insertionSort
          (fun a b => strLe (lowerStr a) (lowerStr b) = true)) :=
      List.sorted_insertionSort _ _
    unfold vendorRows
    exact List.Pairwise.map _ (fun a b hab => hab) hs
  · show (vendorRows bills c ++ [totalsRowOf (vendorRows bills c)]).getLast? = _
    rw [List.getLast?_append]
    rfl

/-- Witness for C4 on a concrete three-bill set (two vendors, mixed
buckets, case-varied names). -/
theorem C4_witness :
    aggregate
        [⟨"w1", "beta", 3, some 0, none, none, .other⟩,
         ⟨"w2", "Alpha", 5, some (40 * 86400), none, none, .other⟩,
         ⟨"w3", "beta", 7, none, none, none, .other⟩] 86399
      = aggregate
        [⟨"w1", "beta", 3, some 0, none, none, .other⟩,
         ⟨"w2", "Alpha", 5, some (40 * 86400), none, none, .other⟩,
         ⟨"w3", "beta", 7, none, none, none, .other⟩] 86399 ∧
    (∀ r ∈ vendorRows
        [⟨"w1", "beta", 3, some 0, none, none, .other⟩,
         ⟨"w2", "Alpha", 5, some (40 * 86400), none, none, .other⟩,
         ⟨"w3", "beta", 7, none, none, none, .other⟩] 86399,
      r.total = r.cur + r.b30 + r.b60 + r.b90 + r.b90p) ∧
    List.Pairwise
      (fun a b : AgingRow => strLe (lowerStr a.vendor) (lowerStr b.vendor) = true)
      (vendorRows
        [⟨"w1", "beta", 3, some 0, none, none, .other⟩,
         ⟨"w2", "Alpha", 5, some (40 * 86400), none, none, .other⟩,
         ⟨"w3", "beta", 7, none, none, none, .other⟩] 86399) ∧
    aggregate
        [⟨"w1", "beta", 3, some 0, none, none, .other⟩,
         ⟨"w2", "Alpha", 5, some (40 * 86400), none, none, .other⟩,
         ⟨"w3", "beta", 7, none, none, none, .other⟩] 86399
      = vendorRows
          [⟨"w1", "beta", 3, some 0, none, none, .other⟩,
           ⟨"w2", "Alpha", 5, some (40 * 86400), none, none, .other⟩,
           ⟨"w3", "beta", 7, none, none, none, .other⟩] 86399
        ++ [totalsRowOf (vendorRows
            [⟨"w1", "beta", 3, some 0, none, none, .other⟩,
             ⟨"w2", "Alpha", 5, some (40 * 86400), none, none, .other⟩,
             ⟨"w3", "beta", 7, none, none, none, .other⟩] 86399)] ∧
    (aggregate
        [⟨"w1", "beta", 3, some 0, none, none, .other⟩,
         ⟨"w2", "Alpha", 5, some (40 * 86400), none, none, .other⟩,
         ⟨"w3", "beta", 7, none, none, none, .other⟩] 86399).getLast?
      = some (totalsRowOf (vendorRows
          [⟨"w1", "beta", 3, some 0, none, none, .other⟩,
           ⟨"w2", "Alpha", 5, some (40 * 86400), none, none, .other⟩,
           ⟨"w3", "beta", 7, none, none, none, .other⟩] 86399)) :=
  C4_aggregate_shape _ 86399

/-- Claim C5: every body row of the reconciliation output has a vendor
that neither starts with `"IC - "` nor equals `"Total"`; the output is
that filtered body followed by the one synthetic `Total` row, whose cells
are computed (`recTotalOf`) from the filtered body only — so excluded
vendors never contribute to its sums, the exclusion having been applied
to the joined frame before the totals. -/
theorem C5_exclusions (rampFile : List RampRow) (ns : List NsRow) (eps : ℚ) :
    generate_reconciliation_report rampFile ns eps
      = reconBody rampFile ns eps ++ [recTotalOf (reconBody rampFile ns eps)] ∧
    (∀ r ∈ reconBody rampFile ns eps,
        ¬ strStartsWith r.vendor "IC - " = true ∧ r.vendor ≠ "Total") ∧
    (recTotalOf (reconBody rampFile ns eps)).vendor = "Total" := by
  refine ⟨rfl, ?_, rfl⟩
  intro r hr
  unfold reconBody at hr
  have hr2 : r ∈ ((outerJoin (rampFile.drop 1) ns).filter keepVendor).map
      (mergedToRec eps) :=
    (List.perm_insertionSort _ _).subset hr
  rcases List.mem_map.mp hr2 with ⟨m, hm, rfl⟩
  have hk := (List.mem_filter.mp hm).2
  unfold keepVendor at hk
  rw [Bool.and_eq_true] at hk
  rcases hk with ⟨h1, h2⟩
  rw [Bool.not_eq_true'] at h1 h2
  constructor
  · show ¬ strStartsWith m.vendor "IC - " = true
    simp [h1]
  · show m.vendor ≠ "Total"
    exact beq_eq_false_iff_ne.mp h2

/-- Witness for C5 on concrete sources holding an `"IC - Foo"` vendor, a
`"Total"` row, and ordinary vendors on both sides. -/
theorem C5_witness :
    generate_reconciliation_report
        [⟨"Vendor Name", 0, 0, 0, 0, 0, 0⟩, ⟨"Acme", 100, 0, 0, 0, 0, 100⟩,
         ⟨"IC - Foo", 40, 0, 0, 0, 0, 40⟩, ⟨"Total", 140, 0, 0, 0, 0, 140⟩]
        [⟨"Acme", some 100, some 0, some 0, some 0, some 0, some 100⟩,
         ⟨"IC - Bar", some 9, none, none, none, none, some 9⟩]
        (1 / 1000000)
      = reconBody
          [⟨"Vendor Name", 0, 0, 0, 0, 0, 0⟩, ⟨"Acme", 100, 0, 0, 0, 0, 100⟩,
           ⟨"IC - Foo", 40, 0, 0, 0, 0, 40⟩, ⟨"Total", 140, 0, 0, 0, 0, 140⟩]
          [⟨"Acme", some 100, some 0, some 0, some 0, some 0, some 100⟩,
           ⟨"IC - Bar", some 9, none, none, none, none, some 9⟩]
          (1 / 1000000)
        ++ [recTotalOf (reconBody
            [⟨"Vendor Name", 0, 0, 0, 0, 0, 0⟩, ⟨"Acme", 100, 0, 0, 0, 0, 100⟩,
             ⟨"IC - Foo", 40, 0, 0, 0, 0, 40⟩, ⟨"Total", 140, 0, 0, 0, 0, 140⟩]
            [⟨"Acme", some 100, some 0, some 0, some 0, some 0, some 100⟩,
             ⟨"IC - Bar", some 9, none, none, none, none, some 9⟩]
            (1 / 1000000))] ∧
    (∀ r ∈ reconBody
        [⟨"Vendor Name", 0, 0, 0, 0, 0, 0⟩, ⟨"Acme", 100, 0, 0, 0, 0, 100⟩,
         ⟨"IC - Foo", 40, 0, 0, 0, 0, 40⟩, ⟨"Total", 140, 0, 0, 0, 0, 140⟩]
        [⟨"Acme", some 100, some 0, some 0, some 0, some 0, some 100⟩,
         ⟨"IC - Bar", some 9, none, none, none, none, some 9⟩]
        (1 / 1000000),
      ¬ strStartsWith r.vendor "IC - " = true ∧ r.vendor ≠ "Total") ∧
    (recTotalOf (reconBody
        [⟨"Vendor Name", 0, 0, 0, 0, 0, 0⟩, ⟨"Acme", 100, 0, 0, 0, 0, 100⟩,
         ⟨"IC - Foo", 40, 0, 0, 0, 0, 40⟩, ⟨"Total", 140, 0, 0, 0, 0, 140⟩]
        [⟨"Acme", some 100, some 0, some 0, some 0, some 0, some 100⟩,
         ⟨"IC - Bar", some 9, none, none, none, none, some 9⟩]
        (1 / 1000000))).vendor = "Total" :=
  C5_exclusions _ _ _

/-- Claim C6 counterexample: vendor `"A"` appears only in source A, with
current-period value 100 (well above the default epsilon 1e-6).  The claim
asserts the diff cell equals `A_value - 0 = 100`; the report actually
shows 0 — the diff is computed on the joined frame while the missing side
is still `NaN` (`100 - NaN = NaN`), the epsilon step keeps `NaN`
(`abs(NaN) < eps` is false), and only afterwards `fillna(0)` turns the
`NaN` diff itself into 0. -/
theorem C6_counterexample :
    ((reconBody
        [⟨"Vendor Name", 0, 0, 0, 0, 0, 0⟩, ⟨"A", 100, 0, 0, 0, 0, 100⟩] []
        (1 / 1000000)).map (fun r => (r.vendor, r.rcur, r.ncur, r.dcur))
      = [("A", 100, 0, 0)]) ∧
    generate_reconciliation_report
        [⟨"Vendor Name", 0, 0, 0, 0, 0, 0⟩, ⟨"A", 100, 0, 0, 0, 0, 100⟩] []
        (1 / 1000000)
      = reconBody
          [⟨"Vendor Name", 0, 0, 0, 0, 0, 0⟩, ⟨"A", 100, 0, 0, 0, 0, 100⟩] []
          (1 / 1000000)
        ++ [recTotalOf (reconBody
            [⟨"Vendor Name", 0, 0, 0, 0, 0, 0⟩, ⟨"A", 100, 0, 0, 0, 0, 100⟩] []
            (1 / 1000000))] ∧
    (0 : ℚ) ≠ 100 := by
  refine ⟨rfl, rfl, by decide⟩

/-- Claim C6 amended: a vendor present in only one source gets 0 in each
of the missing side's six period cells, and each of its six diff cells is
also 0 (the `NaN` difference is filled to 0), not `A_value - 0`. -/
theorem C6_one_sided (rampFile : List RampRow) (ns : List NsRow) (eps : ℚ)
    (r : RecRow) (hr : r ∈ reconBody rampFile ns eps) :
    ((∀ n ∈ ns, n.vendor ≠ r.vendor) →
      (r.ncur = 0 ∧ r.n30 = 0 ∧ r.n60 = 0 ∧ r.n90 = 0 ∧ r.n90p = 0 ∧ r.ntot = 0) ∧
      (r.dcur = 0 ∧ r.d30 = 0 ∧ r.d60 = 0 ∧ r.d90 = 0 ∧ r.d90p = 0 ∧ r.dtot = 0)) ∧
    ((∀ a ∈ rampFile.drop 1, a.vendor ≠ r.vendor) →
      (r.rcur = 0 ∧ r.r30 = 0 ∧ r.r60 = 0 ∧ r.r90 = 0 ∧ r.r90p = 0 ∧ r.rtot = 0) ∧
      (r.dcur = 0 ∧ r.d30 = 0 ∧ r.d60 = 0 ∧ r.d90 = 0 ∧ r.d90p = 0 ∧ r.dtot = 0)) := by
  unfold reconBody at hr
  have hr2 : r ∈ ((outerJoin (rampFile.drop 1) ns).filter keepVendor).map
      (mergedToRec eps) :=
    (List.perm_insertionSort _ _).subset hr
  rcases List.mem_map.mp hr2 with ⟨m, hm, rfl⟩
  have hmj : m ∈ outerJoin (rampFile.drop 1) ns := (List.mem_filter.mp hm).1
  unfold outerJoin at hmj
  rcases List.mem_append.mp hmj with hml | hmr
  · rcases List.mem_map.mp hml with ⟨a, ha, rfl⟩
    constructor
    · intro hns
      have hfind : ns.find? (fun n => n.vendor == a.vendor) = none := by
        apply List.find?_eq_none.mpr
        intro n hn hbeq
        exact hns n hn (eq_of_beq hbeq)
      rw [hfind]
      exact ⟨⟨rfl, rfl, rfl, rfl, rfl, rfl⟩, ⟨rfl, rfl, rfl, rfl, rfl, rfl⟩⟩
    · intro hramp
      exact absurd rfl (hramp a ha)
  · rcases List.mem_map.mp hmr with ⟨n, hn, rfl⟩
    have hn' : n ∈ ns := List.mem_of_mem_filter hn
    constructor
    · intro hns
      exact absurd rfl (hns n hn')
    · intro _
      exact ⟨⟨rfl, rfl, rfl, rfl, rfl, rfl⟩, ⟨rfl, rfl, rfl, rfl, rfl, rfl⟩⟩

/-- Witness for the amended C6, at the counterexample's input: the `"A"`
row of the report, with the NetSuite side empty. -/
theorem C6_witness :
    ((∀ n ∈ ([] : List NsRow), n.vendor ≠
        ({ vendor := "A", rcur := 100, ncur := 0, dcur := 0,
           r30 := 0, n30 := 0, d30 := 0, r60 := 0, n60 := 0, d60 := 0,
           r90 := 0, n90 := 0, d90 := 0, r90p := 0, n90p := 0, d90p := 0,
           rtot := 100, ntot := 0, dtot := 0 } : RecRow).vendor) →
      (({ vendor := "A", rcur := 100, ncur := 0, dcur := 0,
          r30 := 0, n30 := 0, d30 := 0, r60 := 0, n60 := 0, d60 := 0,
          r90 := 0, n90 := 0, d90 := 0, r90p := 0, n90p := 0, d90p := 0,
          rtot := 100, ntot := 0, dtot := 0 } : RecRow).ncur = 0 ∧
        ({ vendor := "A", rcur := 100, ncur := 0, dcur := 0,
           r30 := 0, n30 := 0, d30 := 0, r60 := 0, n60 := 0, d60 := 0,
           r90 := 0, n90 := 0, d90 := 0, r90p := 0, n90p := 0, d90p := 0,
           rtot := 100, ntot := 0, dtot := 0 } : RecRow).n30 = 0 ∧
        ({ vendor := "A", rcur := 100, ncur := 0, dcur := 0,
           r30 := 0, n30 := 0, d30 := 0, r60 := 0, n60 := 0, d60 := 0,
           r90 := 0, n90 := 0, d90 := 0, r90p := 0, n90p := 0, d90p := 0,
           rtot := 100, ntot := 0, dtot := 0 } : RecRow).n60 = 0 ∧
        ({ vendor := "A", rcur := 100, ncur := 0, dcur := 0,
           r30 := 0, n30 := 0, d30 := 0, r60 := 0, n60 := 0, d60 := 0,
           r90 := 0, n90 := 0, d90 := 0, r90p := 0, n90p := 0, d90p := 0,
           rtot := 100, ntot := 0, dtot := 0 } : RecRow).n90 = 0 ∧
        ({ vendor := "A", rcur := 100, ncur := 0, dcur := 0,
           r30 := 0, n30 := 0, d30 := 0, r60 := 0, n60 := 0, d60 := 0,
           r90 := 0, n90 := 0, d90 := 0, r90p := 0, n90p := 0, d90p := 0,
           rtot := 100, ntot := 0, dtot := 0 } : RecRow).n90p = 0 ∧
        ({ vendor := "A", rcur := 100, ncur := 0, dcur := 0,
           r30 := 0, n30 := 0, d30 := 0, r60 := 0, n60 := 0, d60 := 0,
           r90 := 0, n90 := 0, d90 := 0, r90p := 0, n90p := 0, d90p := 0,
           rtot := 100, ntot := 0, dtot := 0 } : RecRow).ntot = 0) ∧
      (({ vendor := "A", rcur := 100, ncur := 0, dcur := 0,
          r30 := 0, n30 := 0, d30 := 0, r60 := 0, n60 := 0, d60 := 0,
          r90 := 0, n90 := 0, d90 := 0, r90p := 0, n90p := 0, d90p := 0,
          rtot := 100, ntot := 0, dtot := 0 } : RecRow).dcur = 0 ∧
        ({ vendor := "A", rcur := 100, ncur := 0, dcur := 0,
           r30 := 0, n30 := 0, d30 := 0, r60 := 0, n60 := 0, d60 := 0,
           r90 := 0, n90 := 0, d90 := 0, r90p := 0, n90p := 0, d90p := 0,
           rtot := 100, ntot := 0, dtot := 0 } : RecRow).d30 = 0 ∧
        ({ vendor := "A", rcur := 100, ncur := 0, dcur := 0,
           r30 := 0, n30 := 0, d30 := 0, r60 := 0, n60 := 0, d60 := 0,
           r90 := 0, n90 := 0, d90 := 0, r90p := 0, n90p := 0, d90p := 0,
           rtot := 100, ntot := 0, dtot := 0 } : RecRow).d60 = 0 ∧
        ({ vendor := "A", rcur := 100, ncur := 0, dcur := 0,
           r30 := 0, n30 := 0, d30 := 0, r60 := 0, n60 := 0, d60 := 0,
           r90 := 0, n90 := 0, d90 := 0, r90p := 0, n90p := 0, d90p := 0,
           rtot := 100, ntot := 0, dtot := 0 } : RecRow).d90 = 0 ∧
        ({ vendor := "A", rcur := 100, ncur := 0, dcur := 0,
           r30 := 0, n30 := 0, d30 := 0, r60 := 0, n60 := 0, d60 := 0,
           r90 := 0, n90 := 0, d90 := 0, r90p := 0, n90p := 0, d90p := 0,
           rtot := 100, ntot := 0, dtot := 0 } : RecRow).d90p = 0 ∧
        ({ vendor := "A", rcur := 100, ncur := 0, dcur := 0,
           r30 := 0, n30 := 0, d30 := 0, r60 := 0, n60 := 0, d60 := 0,
           r90 := 0, n90 := 0, d90 := 0, r90p := 0, n90p := 0, d90p := 0,
           rtot := 100, ntot := 0, dtot := 0 } : RecRow).dtot = 0)) ∧
    ((∀ a ∈ ([⟨"Vendor Name", 0, 0, 0, 0, 0, 0⟩,
          ⟨"A", 100, 0, 0, 0, 0, 100⟩] : List RampRow).drop 1,
        a.vendor ≠
          ({ vendor := "A", rcur := 100, ncur := 0, dcur := 0,
             r30 := 0, n30 := 0, d30 := 0, r60 := 0, n60 := 0, d60 := 0,
             r90 := 0, n90 := 0, d90 := 0, r90p := 0, n90p := 0, d90p := 0,
             rtot := 100, ntot := 0, dtot := 0 } : RecRow).vendor) →
      (({ vendor := "A", rcur := 100, ncur := 0, dcur := 0,
          r30 := 0, n30 := 0, d30 := 0, r60 := 0, n60 := 0, d60 := 0,
          r90 := 0, n90 := 0, d90 := 0, r90p := 0, n90p := 0, d90p := 0,
          rtot := 100, ntot := 0, dtot := 0 } : RecRow).rcur = 0 ∧
        ({ vendor := "A", rcur := 100, ncur := 0, dcur := 0,
           r30 := 0, n30 := 0, d30 := 0, r60 := 0, n60 := 0, d60 := 0,
           r90 := 0, n90 := 0, d90 := 0, r90p := 0, n90p := 0, d90p := 0,
           rtot := 100, ntot := 0, dtot := 0 } : RecRow).r30 = 0 ∧
        ({ vendor := "A", rcur := 100, ncur := 0, dcur := 0,
           r30 := 0, n30 := 0, d30 := 0, r60 := 0, n60 := 0, d60 := 0,
           r90 := 0, n90 := 0, d90 := 0, r90p := 0, n90p := 0, d90p := 0,
           rtot := 100, ntot := 0, dtot := 0 } : RecRow).r60 = 0 ∧
        ({ vendor := "A", rcur := 100, ncur := 0, dcur := 0,
           r30 := 0, n30 := 0, d30 := 0, r60 := 0, n60 := 0, d60 := 0,
           r90 := 0, n90 := 0, d90 := 0, r90p := 0, n90p := 0, d90p := 0,
           rtot := 100, ntot := 0, dtot := 0 } : RecRow).r90 = 0 ∧
        ({ vendor := "A", rcur := 100, ncur := 0, dcur := 0,
           r30 := 0, n30 := 0, d30 := 0, r60 := 0, n60 := 0, d60 := 0,
           r90 := 0, n90 := 0, d90 := 0, r90p := 0, n90p := 0, d90p := 0,
           rtot := 100, ntot := 0, dtot := 0 } : RecRow).r90p = 0 ∧
        ({ vendor := "A", rcur := 100, ncur := 0, dcur := 0,
           r30 := 0, n30 := 0, d30 := 0, r60 := 0, n60 := 0, d60 := 0,
           r90 := 0, n90 := 0, d90 := 0, r90p := 0, n90p := 0, d90p := 0,
           rtot := 100, ntot := 0, dtot := 0 } : RecRow).rtot = 0) ∧
      (({ vendor := "A", rcur := 100, ncur := 0, dcur := 0,
          r30 := 0, n30 := 0, d30 := 0, r60 := 0, n60 := 0, d60 := 0,
          r90 := 0, n90 := 0, d90 := 0, r90p := 0, n90p := 0, d90p := 0,
          rtot := 100, ntot := 0, dtot := 0 } : RecRow).dcur = 0 ∧
        ({ vendor := "A", rcur := 100, ncur := 0, dcur := 0,
           r30 := 0, n30 := 0, d30 := 0, r60 := 0, n60 := 0, d60 := 0,
           r90 := 0, n90 := 0, d90 := 0, r90p := 0, n90p := 0, d90p := 0,
           rtot := 100, ntot := 0, dtot := 0 } : RecRow).d30 = 0 ∧
        ({ vendor := "A", rcur := 100, ncur := 0, dcur := 0,
           r30 := 0, n30 := 0, d30 := 0, r60 := 0, n60 := 0, d60 := 0,
           r90 := 0, n90 := 0, d90 := 0, r90p := 0, n90p := 0, d90p := 0,
           rtot := 100, ntot := 0, dtot := 0 } : RecRow).d60 = 0 ∧
        ({ vendor := "A", rcur := 100, ncur := 0, dcur := 0,
           r30 := 0, n30 := 0, d30 := 0, r60 := 0, n60 := 0, d60 := 0,
           r90 := 0, n90 := 0, d90 := 0, r90p := 0, n90p := 0, d90p := 0,
           rtot := 100, ntot := 0, dtot := 0 } : RecRow).d90 = 0 ∧
        ({ vendor := "A", rcur := 100, ncur := 0, dcur := 0,
           r30 := 0, n30 := 0, d30 := 0, r60 := 0, n60 := 0, d60 := 0,
           r90 := 0, n90 := 0, d90 := 0, r90p := 0, n90p := 0, d90p := 0,
           rtot := 100, ntot := 0, dtot := 0 } : RecRow).d90p = 0 ∧
        ({ vendor := "A", rcur := 100, ncur := 0, dcur := 0,
           r30 := 0, n30 := 0, d30 := 0, r60 := 0, n60 := 0, d60 := 0,
           r90 := 0, n90 := 0, d90 := 0, r90p := 0, n90p := 0, d90p := 0,
           rtot := 100, ntot := 0, dtot := 0 } : RecRow).dtot = 0)) :=
  C6_one_sided
    [⟨"Vendor Name", 0, 0, 0, 0, 0, 0⟩, ⟨"A", 100, 0, 0, 0, 0, 100⟩] [] (1 / 1000000)
    _ (by decide)

/-- Claim C7 (code bug): a bill whose due date is missing or unparseable
is not skipped and does not raise an error — `categorize_aging` assigns it
the `>90` bucket (the `NaT` delta's `nan` makes every comparison false, so
the `else` branch runs), and its amount is added to the vendor's `>90`
pivot cell. -/
theorem C7_missing_due (r : Bill) (c : Int) (h : r.due_at = none) :
    categorize_aging r c = label90p c ∧
    cellSum [r] c r.vendor_name (label90p c) = r.amount := by
  refine ⟨categorize_of_none r c h, ?_⟩
  simp [cellSum, categorize_of_none r c h]

/-- Witness for C7: a concrete bill with `due_at = NaT` lands in the `>90`
cell with its full amount. -/
theorem C7_witness :
    ((⟨"n1", "V", 5, none, none, none, .other⟩ : Bill).due_at = none) ∧
    (categorize_aging (⟨"n1", "V", 5, none, none, none, .other⟩ : Bill) 0
        = label90p 0 ∧
      cellSum [(⟨"n1", "V", 5, none, none, none, .other⟩ : Bill)] 0
          (⟨"n1", "V", 5, none, none, none, .other⟩ : Bill).vendor_name
          (label90p 0)
        = (5 : ℚ)) :=
  ⟨rfl, C7_missing_due ⟨"n1", "V", 5, none, none, none, .other⟩ 0 rfl⟩

/-- Claim C8 counterexample: the first row of the source A file (vendor
`"First"`) does not contribute a vendor row to the reconciliation —
`pd.read_csv` consumes it as the header line — while the second row
(vendor `"Second"`) does. -/
theorem C8_counterexample :
    ((generate_reconciliation_report
        [⟨"First", 1, 1, 1, 1, 1, 1⟩, ⟨"Second", 2, 2, 2, 2, 2, 2⟩] []
        (1 / 1000000)).map RecRow.vendor = ["Second", "Total"]) ∧
    "First" ∉ (["Second", "Total"] : List String) := by
  constructor
  · rfl
  · decide

/-- Claim C8 amended: source A is read as a positional 7-column table
whose first row is consumed as the header (its contents never reach the
join — the report is the same whatever that row holds), and every row
after the first contributes a vendor row to the join. -/
theorem C8_header_consumed (r0 r0' : RampRow) (rest : List RampRow)
    (ns : List NsRow) (eps : ℚ) :
    generate_reconciliation_report (r0 :: rest) ns eps
      = generate_reconciliation_report (r0' :: rest) ns eps ∧
    ∀ a ∈ rest, a.vendor ∈ (outerJoin ((r0 :: rest).drop 1) ns).map MergedRow.vendor := by
  constructor
  · rfl
  · intro a ha
    show a.vendor ∈ (outerJoin rest ns).map MergedRow.vendor
    unfold outerJoin
    rw [List.map_append]
    apply List.mem_append_left
    rw [List.map_map]
    exact List.mem_map.mpr ⟨a, ha, rfl⟩

/-- Witness for the amended C8: concrete two-row file, the data row's
vendor reaches the join whichever header row is present. -/
theorem C8_witness :
    generate_reconciliation_report
        [⟨"First", 1, 1, 1, 1, 1, 1⟩, ⟨"Second", 2, 2, 2, 2, 2, 2⟩] []
        (1 / 1000000)
      = generate_reconciliation_report
          [⟨"Other", 9, 9, 9, 9, 9, 9⟩, ⟨"Second", 2, 2, 2, 2, 2, 2⟩] []
          (1 / 1000000) ∧
    ∀ a ∈ [(⟨"Second", 2, 2, 2, 2, 2, 2⟩ : RampRow)],
      a.vendor ∈ (outerJoin
          (([⟨"First", 1, 1, 1, 1, 1, 1⟩,
             ⟨"Second", 2, 2, 2, 2, 2, 2⟩] : List RampRow).drop 1)
          []).map MergedRow.vendor :=
  C8_header_consumed ⟨"First", 1, 1, 1, 1, 1, 1⟩ ⟨"Other", 9, 9, 9, 9, 9, 9⟩
    [⟨"Second", 2, 2, 2, 2, 2, 2⟩] [] (1 / 1000000)

-- sanity examples (spec section 8 end-to-end instances); day 19966 = 2024-08-31
example : fmtYmd (19966 * 86400 + 86399) = "2024-08-31" := by decide
example :
    categorize_aging ⟨"b", "v", 10, some (19936 * 86400), none, none, .other⟩
        (19966 * 86400 + 86399) =
      "2024-07-03 - 2024-08-01 (60)" := by decide
example :
    categorize_aging ⟨"b", "v", 10, some (19967 * 86400), none, none, .other⟩
        (19966 * 86400 + 86399) = "Current" := by decide
